import Mathlib

/-
Shallow embedding of the telemetry reporter (package `telemetry`, file
`reporter.go`, together with the `v1alpha1` event data model).

Modelling decisions:
- Time instants are natural numbers (seconds); `time.Time` pointers become
  `Option Nat`.
- The Go runtime's concurrency is modelled as an explicit state machine on a
  `Reporter` record: the errgroup's active-goroutine count is `inFlight`, the
  group's shared cancellable context is the flag `groupCancelled`, and the
  first error recorded by the errgroup is `groupErr`.  Starting a delivery
  task records the event passed to the Delivery Client in `started`; a task
  finishing is the separate step `completeTask`.
- `os.Getenv(doNotTrackEnvName)` is a per-call parameter `doNotTrack`,
  matching the fact that the environment variable is re-read on every call.
- Log output is a list of (level, message) entries appended in program order.
-/

namespace Telemetry

/-- Log severity levels the reporter emits (`slog.Debug` and `slog.Warn`). -/
inductive LogLevel where
  | debug
  | warn
deriving DecidableEq, Repr

/-- One log line emitted by the reporter. -/
structure LogEntry where
  level : LogLevel
  msg : String
deriving DecidableEq, Repr

/-- A stack frame attached to an error event (`v1alpha1.StackFrame`). -/
structure StackFrame where
  file : String
  function : String
  line : Int
  column : Int
deriving DecidableEq, Repr

/-- A telemetry event (`v1alpha1.TelemetryEvent`).  `Kind` is a string type in
the source (`TelemetryEventKind string`); `Timestamp` is a nullable instant;
`Values` is a string-to-string mapping, modelled as an association list. -/
structure TelemetryEvent where
  sessionID : String
  timestamp : Option Nat
  kind : String
  name : String
  message : String
  values : List (String × String)
  stackTrace : List StackFrame
  tags : List String
deriving DecidableEq, Repr

/-- Go error values that matter to the reporter: `context.Canceled` versus any
other error (delivery failures, etc.), identified by message. -/
inductive GoError where
  | canceled
  | other (msg : String)
deriving DecidableEq, Repr

/-- The environment variable name to disable telemetry reporting
(`doNotTrackEnvName` constant in reporter.go). -/
def doNotTrackEnvName : String := "DO_NOT_TRACK"

/-- The maximum number of in-flight telemetry reports (`maxConcurrentReports`
constant in reporter.go); `NewReporter` installs it via
`reports.SetLimit(maxConcurrentReports)`. -/
def maxConcurrentReports : Nat := 16

/-- The telemetry reporter configuration (`Configuration` struct); the HTTP
client and logger are external collaborators and carry no reporter-visible
state. -/
structure Configuration where
  baseURL : String
  authToken : String
  tags : List String
deriving DecidableEq, Repr

/-- Reporter state (`Reporter` struct plus the state of its errgroup):
`sessionID` and `tags` are the enrichment configuration, `shuttingDown` is the
atomic flag, `inFlight` the number of active delivery goroutines,
`groupCancelled` whether the shared group context `reportsCtx` has been
cancelled, `groupErr` the first error recorded by the errgroup, `started` the
list of events handed to delivery tasks (i.e. to the Delivery Client), and
`log` the emitted log lines. -/
structure Reporter where
  sessionID : String
  tags : List String
  shuttingDown : Bool
  inFlight : Nat
  groupCancelled : Bool
  groupErr : Option GoError
  started : List TelemetryEvent
  log : List LogEntry
deriving DecidableEq, Repr

/-- `NewReporter` (reporter.go lines 58-77): builds the reporter with a fresh
errgroup limited to `maxConcurrentReports`, the generated session identifier
(`util.GenerateID(16)`, modelled as a parameter) and the configured tags. -/
def NewReporter (sessionID : String) (conf : Configuration) : Reporter :=
  { sessionID := sessionID
    tags := conf.tags
    shuttingDown := false
    inFlight := 0
    groupCancelled := false
    groupErr := none
    started := []
    log := [] }

/-- The enrichment block of `ReportEvent` (reporter.go lines 124-131):
`event.Timestamp = &now` unconditionally; `event.SessionID = r.sessionID` only
when empty; `event.Tags = append(event.Tags, r.tags...)`. -/
def enrich (r : Reporter) (now : Nat) (event : TelemetryEvent) : TelemetryEvent :=
  let event := { event with timestamp := some now }
  let event :=
    if event.sessionID = "" then { event with sessionID := r.sessionID } else event
  { event with tags := event.tags ++ r.tags }

/-- `ReportEvent` (reporter.go lines 118-152).  Returns the updated reporter
state and the event object after the call (the event is mutated in place in
Go).  Steps, in source order: the `DO_NOT_TRACK` check (env value read per
call), enrichment, the `shuttingDown` check, then `reports.TryGo`, which
starts a delivery task exactly when the group is below its limit and
otherwise fails immediately. -/
def ReportEvent (doNotTrack : String) (now : Nat) (r : Reporter)
    (event : TelemetryEvent) : Reporter × TelemetryEvent :=
  if doNotTrack ≠ "" then
    ({ r with log := r.log ++ [⟨LogLevel.debug, "Telemetry is disabled, dropping event"⟩] },
      event)
  else
    let event := enrich r now event
    if r.shuttingDown then
      ({ r with log := r.log ++ [⟨LogLevel.debug, "Shutting down, dropping event"⟩] },
        event)
    else if r.inFlight < maxConcurrentReports then
      ({ r with inFlight := r.inFlight + 1, started := r.started ++ [event] }, event)
    else
      ({ r with log := r.log ++ [⟨LogLevel.warn, "Too many in-flight telemetry reports, dropping event"⟩] },
        event)

/-- Body of the delivery task closure passed to `reports.TryGo` (reporter.go
lines 138-147): it invokes the Delivery Client (outcome `clientErr` is
environmental: network failure or non-200 status yields `some e`), logs a
debug line on failure, and returns `nil` to the errgroup in every case. -/
def deliveryTask (clientErr : Option GoError) (log : List LogEntry) :
    Option GoError × List LogEntry :=
  match clientErr with
  | some _ => (none, log ++ [⟨LogLevel.debug, "Failed to report event"⟩])
  | none => (none, log)

/-- The per-delivery context `context.WithTimeout(r.reportsCtx, 30*time.Second)`
(reporter.go line 140): done exactly when the shared group context is cancelled
or the 30-second timeout has elapsed. -/
def derivedCtxDone (groupCancelled : Bool) (elapsed : Nat) : Bool :=
  groupCancelled || decide (30 ≤ elapsed)

/-- A delivery goroutine finishing with result `taskErr` (errgroup semantics:
the active count drops; the first non-nil result is recorded and cancels the
shared group context). -/
def completeTask (r : Reporter) (taskErr : Option GoError) : Reporter :=
  let r := { r with inFlight := r.inFlight - 1 }
  match taskErr with
  | some _ =>
      if r.groupErr = none then
        { r with groupErr := taskErr, groupCancelled := true }
      else r
  | none => r

/-- `Close` (reporter.go lines 80-90): `r.reports.Go(func() error { return
context.Canceled })` makes `context.Canceled` the group's first error unless
one was already recorded, which cancels the shared group context; then
`r.reports.Wait()` waits for every task to unwind (delivery tasks all return
`nil`, so the wait's result is the recorded first error) and the result is
returned unless it is `nil` or `errors.Is(err, context.Canceled)`. -/
def Close (r : Reporter) : Option GoError × Reporter :=
  let firstErr : Option GoError :=
    match r.groupErr with
    | some e => some e
    | none => some GoError.canceled
  let r1 : Reporter :=
    { r with groupErr := firstErr, groupCancelled := true, inFlight := 0 }
  match firstErr with
  | some e => if e = GoError.canceled then (none, r1) else (some e, r1)
  | none => (none, r1)

/-- Which ready channel the `select` in `Shutdown` fires on: `deadline` is the
`<-ctx.Done()` arm (possible only when the supplied context's deadline has
expired), `drained` is the `<-reportsDone` arm (possible only when
`r.reports.Wait()` has returned, i.e. all in-flight tasks finished). -/
inductive ShutdownBranch where
  | deadline
  | drained
deriving DecidableEq, Repr

/-- `Shutdown` (reporter.go lines 93-115): stores `true` into `shuttingDown`
first, then races `r.reports.Wait()` against the supplied context.  On the
deadline arm it falls back to `Close` and returns its result.  On the drained
arm all tasks have finished (delivery tasks return `nil`, so the wait yields
the group's recorded first error, and errgroup's `Wait` cancels the shared
context on return); the result is returned unless it is `nil` or
`errors.Is(err, context.Canceled)`. -/
def Shutdown (r : Reporter) (b : ShutdownBranch) : Option GoError × Reporter :=
  let r0 : Reporter := { r with shuttingDown := true }
  match b with
  | .deadline => Close r0
  | .drained =>
      let waitErr := r0.groupErr
      let r1 : Reporter := { r0 with inFlight := 0, groupCancelled := true }
      match waitErr with
      | some e => if e = GoError.canceled then (none, r1) else (some e, r1)
      | none => (none, r1)

/-- A sequence of `ReportEvent` calls with no intervening task completion
(events arriving faster than they can be delivered). -/
def reportMany (doNotTrack : String) (now : Nat) (r : Reporter)
    (evs : List TelemetryEvent) : Reporter :=
  evs.foldl (fun acc ev => (ReportEvent doNotTrack now acc ev).1) r

/-- Number of warning-level lines in a log. -/
def warnCount (log : List LogEntry) : Nat :=
  log.countP (fun e => decide (e.level = LogLevel.warn))

/-- A sample raw event, mirroring the event of the repository's tests. -/
def ev0 : TelemetryEvent :=
  { sessionID := ""
    timestamp := none
    kind := "info"
    name := "TestEvent"
    message := ""
    values := [("key1", "value1")]
    stackTrace := []
    tags := [] }

/-- A sample configuration, mirroring the repository's tests. -/
def conf0 : Configuration :=
  { baseURL := "http://localhost", authToken := "test-token", tags := ["test-tag"] }

/-- A reporter that is both shutting down and at capacity. -/
def rBusy : Reporter :=
  { NewReporter "sess" conf0 with shuttingDown := true, inFlight := maxConcurrentReports }

/-- A running reporter whose task group is exactly at capacity. -/
def rFull : Reporter :=
  { NewReporter "sess" conf0 with inFlight := maxConcurrentReports }

/-- Enrichment always stamps the current instant. -/
theorem enrich_timestamp (r : Reporter) (now : Nat) (ev : TelemetryEvent) :
    (enrich r now ev).timestamp = some now := by
  simp only [enrich]
  split <;> rfl

/-- Enrichment fills the session identifier only when the caller left it empty. -/
theorem enrich_sessionID (r : Reporter) (now : Nat) (ev : TelemetryEvent) :
    (enrich r now ev).sessionID =
      (if ev.sessionID = "" then r.sessionID else ev.sessionID) := by
  simp only [enrich]
  split <;> simp_all

/-- Enrichment appends the configured tags after the caller-supplied tags. -/
theorem enrich_tags (r : Reporter) (now : Nat) (ev : TelemetryEvent) :
    (enrich r now ev).tags = ev.tags ++ r.tags := by
  simp only [enrich]
  split <;> rfl

/-- Enrichment touches no field other than timestamp, sessionID and tags. -/
theorem enrich_frame (r : Reporter) (now : Nat) (ev : TelemetryEvent) :
    (enrich r now ev).kind = ev.kind ∧ (enrich r now ev).name = ev.name ∧
    (enrich r now ev).message = ev.message ∧ (enrich r now ev).values = ev.values ∧
    (enrich r now ev).stackTrace = ev.stackTrace := by
  simp only [enrich]
  split <;> exact ⟨rfl, rfl, rfl, rfl, rfl⟩

/-- With the opt-out signal inactive, `ReportEvent` returns the enriched event
in every branch (drop or admit). -/
theorem ReportEvent_inactive_snd (now : Nat) (r : Reporter) (ev : TelemetryEvent) :
    (ReportEvent "" now r ev).2 = enrich r now ev := by
  simp only [ReportEvent, ne_eq, not_true_eq_false, if_false]
  split
  · rfl
  · split <;> rfl

/-- C1: while the opt-out signal is inactive, the reporter is not shutting
down and the task group is below capacity, `ReportEvent` hands the event to
the Delivery Client exactly once (the list of started deliveries grows by
exactly that one event), and at that point the event's timestamp is the
current instant, its sessionID is the reporter's session identifier when the
caller left it empty (otherwise the caller's value), and its tags are the
caller-supplied tags followed by the reporter's configured tags. -/
theorem C1_delivery_exactly_once_enriched (doNotTrack : String) (now : Nat)
    (r : Reporter) (ev : TelemetryEvent) (hd : doNotTrack = "")
    (hsd : r.shuttingDown = false) (hcap : r.inFlight < maxConcurrentReports) :
    (ReportEvent doNotTrack now r ev).1.started = r.started ++ [enrich r now ev] ∧
    (ReportEvent doNotTrack now r ev).1.inFlight = r.inFlight + 1 ∧
    (enrich r now ev).timestamp = some now ∧
    (enrich r now ev).sessionID =
      (if ev.sessionID = "" then r.sessionID else ev.sessionID) ∧
    (enrich r now ev).tags = ev.tags ++ r.tags := by
  subst hd
  refine ⟨?_, ?_, enrich_timestamp r now ev, enrich_sessionID r now ev,
    enrich_tags r now ev⟩ <;>
    simp [ReportEvent, hsd, hcap]

/-- C1 witness: a fresh reporter delivering the sample event. -/
theorem C1_witness :
    (ReportEvent "" 42 (NewReporter "sess" conf0) ev0).1.started =
      (NewReporter "sess" conf0).started ++ [enrich (NewReporter "sess" conf0) 42 ev0] ∧
    (ReportEvent "" 42 (NewReporter "sess" conf0) ev0).1.inFlight =
      (NewReporter "sess" conf0).inFlight + 1 ∧
    (enrich (NewReporter "sess" conf0) 42 ev0).timestamp = some 42 ∧
    (enrich (NewReporter "sess" conf0) 42 ev0).sessionID =
      (if ev0.sessionID = "" then (NewReporter "sess" conf0).sessionID else ev0.sessionID) ∧
    (enrich (NewReporter "sess" conf0) 42 ev0).tags = ev0.tags ++ (NewReporter "sess" conf0).tags :=
  C1_delivery_exactly_once_enriched "" 42 (NewReporter "sess" conf0) ev0 rfl rfl
    (by decide)

/-- C2: while the opt-out signal is active (any non-empty value, read at call
time), `ReportEvent` never invokes the Delivery Client and leaves the event
object completely unchanged, regardless of pool state or lifecycle state. -/
theorem C2_opt_out_inert (doNotTrack : String) (now : Nat) (r : Reporter)
    (ev : TelemetryEvent) (hd : doNotTrack ≠ "") :
    (ReportEvent doNotTrack now r ev).2 = ev ∧
    (ReportEvent doNotTrack now r ev).1.started = r.started ∧
    (ReportEvent doNotTrack now r ev).1.inFlight = r.inFlight := by
  refine ⟨?_, ?_, ?_⟩ <;> simp [ReportEvent, hd]

/-- C2 witness: `DO_NOT_TRACK=1` on a reporter that is shutting down and at
capacity — the event is untouched and nothing is admitted. -/
theorem C2_witness :
    (ReportEvent "1" 42 rBusy ev0).2 = ev0 ∧
    (ReportEvent "1" 42 rBusy ev0).1.started = rBusy.started ∧
    (ReportEvent "1" 42 rBusy ev0).1.inFlight = rBusy.inFlight :=
  C2_opt_out_inert "1" 42 rBusy ev0 (by decide)

/-- C9 counterexample: an event arriving with a timestamp already set (5) has
it overwritten with the current instant (7) — `event.Timestamp = &now` is
unconditional, so a pre-existing timestamp is not preserved. -/
theorem C9_counterexample :
    ¬ ((ReportEvent "" 7 (NewReporter "sess" conf0)
        { ev0 with timestamp := some 5 }).2.timestamp = some 5) := by
  decide

/-- C9 (amended): during enrichment the event is mutated in place; a
pre-existing non-empty sessionID is preserved and only an empty one is filled,
the tag list is extended by appending the configured tags, all other fields
are untouched — but the timestamp is always overwritten with the current
instant, even when the event already carries one. -/
theorem C9_enrichment_in_place (doNotTrack : String) (now : Nat) (r : Reporter)
    (ev : TelemetryEvent) (hd : doNotTrack = "") :
    (ReportEvent doNotTrack now r ev).2.timestamp = some now ∧
    (ReportEvent doNotTrack now r ev).2.sessionID =
      (if ev.sessionID = "" then r.sessionID else ev.sessionID) ∧
    (ReportEvent doNotTrack now r ev).2.tags = ev.tags ++ r.tags ∧
    (ReportEvent doNotTrack now r ev).2.kind = ev.kind ∧
    (ReportEvent doNotTrack now r ev).2.name = ev.name ∧
    (ReportEvent doNotTrack now r ev).2.message = ev.message ∧
    (ReportEvent doNotTrack now r ev).2.values = ev.values ∧
    (ReportEvent doNotTrack now r ev).2.stackTrace = ev.stackTrace := by
  subst hd
  rw [ReportEvent_inactive_snd]
  obtain ⟨h1, h2, h3, h4, h5⟩ := enrich_frame r now ev
  exact ⟨enrich_timestamp r now ev, enrich_sessionID r now ev,
    enrich_tags r now ev, h1, h2, h3, h4, h5⟩

/-- C9 witness: an event that already carries a non-empty sessionID keeps it,
while the timestamp is stamped and the configured tag is appended. -/
theorem C9_witness :
    (ReportEvent "" 9 (NewReporter "sess" conf0) { ev0 with sessionID := "keep" }).2.timestamp = some 9 ∧
    (ReportEvent "" 9 (NewReporter "sess" conf0) { ev0 with sessionID := "keep" }).2.sessionID =
      (if ({ ev0 with sessionID := "keep" } : TelemetryEvent).sessionID = ""
        then (NewReporter "sess" conf0).sessionID
        else ({ ev0 with sessionID := "keep" } : TelemetryEvent).sessionID) ∧
    (ReportEvent "" 9 (NewReporter "sess" conf0) { ev0 with sessionID := "keep" }).2.tags =
      ({ ev0 with sessionID := "keep" } : TelemetryEvent).tags ++ (NewReporter "sess" conf0).tags ∧
    (ReportEvent "" 9 (NewReporter "sess" conf0) { ev0 with sessionID := "keep" }).2.kind =
      ({ ev0 with sessionID := "keep" } : TelemetryEvent).kind ∧
    (ReportEvent "" 9 (NewReporter "sess" conf0) { ev0 with sessionID := "keep" }).2.name =
      ({ ev0 with sessionID := "keep" } : TelemetryEvent).name ∧
    (ReportEvent "" 9 (NewReporter "sess" conf0) { ev0 with sessionID := "keep" }).2.message =
      ({ ev0 with sessionID := "keep" } : TelemetryEvent).message ∧
    (ReportEvent "" 9 (NewReporter "sess" conf0) { ev0 with sessionID := "keep" }).2.values =
      ({ ev0 with sessionID := "keep" } : TelemetryEvent).values ∧
    (ReportEvent "" 9 (NewReporter "sess" conf0) { ev0 with sessionID := "keep" }).2.stackTrace =
      ({ ev0 with sessionID := "keep" } : TelemetryEvent).stackTrace :=
  C9_enrichment_in_place "" 9 (NewReporter "sess" conf0) { ev0 with sessionID := "keep" } rfl

/-- C10: with the opt-out signal inactive, the caller's event object is
enriched (timestamp stamped, empty sessionID filled, configured tags appended)
even when the event is then dropped because the reporter is shutting down or
the pool is at capacity — the drop does not undo or skip the mutations. -/
theorem C10_drop_after_enrichment (doNotTrack : String) (now : Nat)
    (r : Reporter) (ev : TelemetryEvent) (hd : doNotTrack = "")
    (hdrop : r.shuttingDown = true ∨ maxConcurrentReports ≤ r.inFlight) :
    (ReportEvent doNotTrack now r ev).1.started = r.started ∧
    (ReportEvent doNotTrack now r ev).2 = enrich r now ev ∧
    (enrich r now ev).timestamp = some now ∧
    (enrich r now ev).sessionID =
      (if ev.sessionID = "" then r.sessionID else ev.sessionID) ∧
    (enrich r now ev).tags = ev.tags ++ r.tags := by
  subst hd
  refine ⟨?_, ReportEvent_inactive_snd now r ev, enrich_timestamp r now ev,
    enrich_sessionID r now ev, enrich_tags r now ev⟩
  rcases hdrop with h | h
  · simp [ReportEvent, h]
  · simp only [ReportEvent, ne_eq, not_true_eq_false, if_false, Nat.not_lt.mpr h,
      ite_false]
    split <;> rfl

/-- C10 witness: a shutting-down, saturated reporter still mutates the event
before dropping it. -/
theorem C10_witness :
    (ReportEvent "" 5 rBusy ev0).1.started = rBusy.started ∧
    (ReportEvent "" 5 rBusy ev0).2 = enrich rBusy 5 ev0 ∧
    (enrich rBusy 5 ev0).timestamp = some 5 ∧
    (enrich rBusy 5 ev0).sessionID =
      (if ev0.sessionID = "" then rBusy.sessionID else ev0.sessionID) ∧
    (enrich rBusy 5 ev0).tags = ev0.tags ++ rBusy.tags :=
  C10_drop_after_enrichment "" 5 rBusy ev0 rfl (Or.inl rfl)

/-- The final reporter state after `Close`: the group context is cancelled,
all tasks have been waited for, and the first recorded error is the previous
one or the injected `context.Canceled`. -/
theorem Close_snd_eq (r : Reporter) :
    (Close r).2 = { r with
      groupErr := some (r.groupErr.getD GoError.canceled)
      groupCancelled := true
      inFlight := 0 } := by
  cases hg : r.groupErr with
  | none => simp [Close, hg]
  | some e =>
      simp only [Close, hg, Option.getD_some]
      split <;> rfl

/-- The value returned by `Close` when the group holds no error or only the
cancellation error. -/
theorem Close_fst_none (r : Reporter)
    (hg : r.groupErr = none ∨ r.groupErr = some GoError.canceled) :
    (Close r).1 = none := by
  rcases hg with hg | hg <;> simp [Close, hg]

/-- The value returned by `Close` when the group holds a non-cancellation
error. -/
theorem Close_fst_other (r : Reporter) (e : GoError) (hg : r.groupErr = some e)
    (hne : e ≠ GoError.canceled) :
    (Close r).1 = some e := by
  simp [Close, hg, hne]

/-- `Close` does not touch the shutting-down flag. -/
theorem Close_shuttingDown (r : Reporter) :
    (Close r).2.shuttingDown = r.shuttingDown := by
  rw [Close_snd_eq]

/-- Both branches of `Shutdown` leave the shutting-down flag set. -/
theorem Shutdown_shuttingDown (r : Reporter) (b : ShutdownBranch) :
    (Shutdown r b).2.shuttingDown = true := by
  cases b with
  | deadline =>
      show (Close { r with shuttingDown := true }).2.shuttingDown = true
      rw [Close_shuttingDown]
  | drained =>
      cases hg : r.groupErr with
      | none => simp [Shutdown, hg]
      | some e =>
          simp only [Shutdown, hg]
          split <;> rfl

/-- `ReportEvent` never writes the shutting-down flag. -/
theorem ReportEvent_shuttingDown (doNotTrack : String) (now : Nat)
    (r : Reporter) (ev : TelemetryEvent) :
    (ReportEvent doNotTrack now r ev).1.shuttingDown = r.shuttingDown := by
  simp only [ReportEvent]
  split
  · rfl
  · split
    · rfl
    · split <;> rfl

/-- C4 counterexample: after `Close` alone the shutting-down flag is still
false, and a subsequent `ReportEvent` (opt-out inactive) admits a new delivery
task — the started-delivery list grows — contradicting the claim that once
either terminal operation has been invoked every later call drops before
admission. -/
theorem C4_counterexample :
    (Close (NewReporter "sess" conf0)).2.shuttingDown = false ∧
    (ReportEvent "" 0 (Close (NewReporter "sess" conf0)).2 ev0).1.started.length =
      (Close (NewReporter "sess" conf0)).2.started.length + 1 := by
  decide

/-- C4 (amended): only `Shutdown` sets the shutting-down flag; once it has run
(either branch) the flag is true, every `ReportEvent` call on a reporter whose
flag is true drops its event before admission (no delivery task starts, the
in-flight count is unchanged), and `ReportEvent` never clears the flag, so
this holds for every subsequent call.  `Close` alone does not set the flag,
and a later `ReportEvent` may still start a delivery task (which then runs
against the cancelled group context). -/
theorem C4_shutdown_blocks_admission (r : Reporter) (b : ShutdownBranch)
    (doNotTrack : String) (now : Nat) (ev : TelemetryEvent) :
    (Shutdown r b).2.shuttingDown = true ∧
    (r.shuttingDown = true →
      (ReportEvent doNotTrack now r ev).1.started = r.started ∧
      (ReportEvent doNotTrack now r ev).1.inFlight = r.inFlight) ∧
    (ReportEvent doNotTrack now r ev).1.shuttingDown = r.shuttingDown := by
  refine ⟨Shutdown_shuttingDown r b, fun h => ?_,
    ReportEvent_shuttingDown doNotTrack now r ev⟩
  by_cases hd : doNotTrack = "" <;> simp [ReportEvent, hd, h]

/-- C4 witness: after a graceful shutdown the flag is set, and a reporter with
the flag set drops the sample event without admitting it. -/
theorem C4_witness :
    (Shutdown (NewReporter "sess" conf0) ShutdownBranch.drained).2.shuttingDown = true ∧
    (rBusy.shuttingDown = true →
      (ReportEvent "" 3 rBusy ev0).1.started = rBusy.started ∧
      (ReportEvent "" 3 rBusy ev0).1.inFlight = rBusy.inFlight) ∧
    (ReportEvent "" 3 rBusy ev0).1.shuttingDown = rBusy.shuttingDown :=
  ⟨(C4_shutdown_blocks_admission (NewReporter "sess" conf0) ShutdownBranch.drained
      "" 3 ev0).1,
    (C4_shutdown_blocks_admission rBusy ShutdownBranch.drained "" 3 ev0).2.1,
    (C4_shutdown_blocks_admission rBusy ShutdownBranch.drained "" 3 ev0).2.2⟩

/-- C5: `Shutdown` sets the shutting-down flag in every outcome; when the
deadline elapses first it falls back to `Close` (on the flagged state) and
returns exactly `Close`'s result; when all in-flight tasks finish first it
returns success, filtering a cancellation error out of the group wait, and
propagates only a non-cancellation error. -/
theorem C5_shutdown_race_semantics (r : Reporter) (b : ShutdownBranch)
    (e : GoError) :
    (Shutdown r b).2.shuttingDown = true ∧
    Shutdown r ShutdownBranch.deadline = Close { r with shuttingDown := true } ∧
    ((r.groupErr = none ∨ r.groupErr = some GoError.canceled) →
      (Shutdown r ShutdownBranch.drained).1 = none) ∧
    (r.groupErr = some e → e ≠ GoError.canceled →
      (Shutdown r ShutdownBranch.drained).1 = some e) := by
  refine ⟨Shutdown_shuttingDown r b, rfl, fun hg => ?_, fun hg hne => ?_⟩
  · rcases hg with hg | hg <;> simp [Shutdown, hg]
  · simp [Shutdown, hg, hne]

/-- C5 witness: on a fresh reporter the drained branch returns success; on a
reporter whose group recorded a non-cancellation error the drained branch
propagates it; the deadline branch is literally `Close` on the flagged
state. -/
theorem C5_witness :
    (Shutdown (NewReporter "sess" conf0) ShutdownBranch.drained).2.shuttingDown = true ∧
    Shutdown (NewReporter "sess" conf0) ShutdownBranch.deadline =
      Close { NewReporter "sess" conf0 with shuttingDown := true } ∧
    (Shutdown (NewReporter "sess" conf0) ShutdownBranch.drained).1 = none ∧
    (Shutdown { NewReporter "sess" conf0 with groupErr := some (GoError.other "boom") }
      ShutdownBranch.drained).1 = some (GoError.other "boom") :=
  ⟨(C5_shutdown_race_semantics (NewReporter "sess" conf0) ShutdownBranch.drained
      GoError.canceled).1,
    (C5_shutdown_race_semantics (NewReporter "sess" conf0) ShutdownBranch.drained
      GoError.canceled).2.1,
    (C5_shutdown_race_semantics (NewReporter "sess" conf0) ShutdownBranch.drained
      GoError.canceled).2.2.1 (Or.inl rfl),
    (C5_shutdown_race_semantics
      { NewReporter "sess" conf0 with groupErr := some (GoError.other "boom") }
      ShutdownBranch.drained (GoError.other "boom")).2.2.2 rfl (by decide)⟩

/-- C6: `Close` cancels the shared group context (so every in-flight
delivery's derived per-delivery context is done), waits for all tasks to
unwind (in-flight count reaches zero), filters cancellation out of the group
result, and returns an error only when the group surfaces a non-cancellation
error. -/
theorem C6_close_cancel_and_filter (r : Reporter) (e : GoError) (elapsed : Nat) :
    (Close r).2.groupCancelled = true ∧
    (Close r).2.inFlight = 0 ∧
    derivedCtxDone (Close r).2.groupCancelled elapsed = true ∧
    ((r.groupErr = none ∨ r.groupErr = some GoError.canceled) → (Close r).1 = none) ∧
    (r.groupErr = some e → e ≠ GoError.canceled → (Close r).1 = some e) := by
  have h2 := Close_snd_eq r
  refine ⟨by rw [h2], by rw [h2], ?_, Close_fst_none r, Close_fst_other r e⟩
  rw [h2]
  simp [derivedCtxDone]

/-- C6 witness: closing a fresh reporter cancels the context, drains the
pool and returns success; closing a reporter holding a non-cancellation group
error returns that error. -/
theorem C6_witness :
    (Close (NewReporter "sess" conf0)).2.groupCancelled = true ∧
    (Close (NewReporter "sess" conf0)).2.inFlight = 0 ∧
    derivedCtxDone (Close (NewReporter "sess" conf0)).2.groupCancelled 0 = true ∧
    (Close (NewReporter "sess" conf0)).1 = none ∧
    (Close { NewReporter "sess" conf0 with groupErr := some (GoError.other "boom") }).1 =
      some (GoError.other "boom") :=
  ⟨(C6_close_cancel_and_filter (NewReporter "sess" conf0) GoError.canceled 0).1,
    (C6_close_cancel_and_filter (NewReporter "sess" conf0) GoError.canceled 0).2.1,
    (C6_close_cancel_and_filter (NewReporter "sess" conf0) GoError.canceled 0).2.2.1,
    (C6_close_cancel_and_filter (NewReporter "sess" conf0) GoError.canceled 0).2.2.2.1
      (Or.inl rfl),
    (C6_close_cancel_and_filter
      { NewReporter "sess" conf0 with groupErr := some (GoError.other "boom") }
      (GoError.other "boom") 0).2.2.2.2 rfl (by decide)⟩

/-- C7: a delivery task returns success to the errgroup no matter how the
delivery went; a failed delivery only adds a debug log line; and completing
such a task neither records a group error nor cancels the shared group
context (so sibling deliveries are unaffected) — no delivery failure reaches
the `ReportEvent` caller. -/
theorem C7_delivery_errors_swallowed (clientErr : Option GoError) (r : Reporter)
    (log : List LogEntry) :
    (deliveryTask clientErr log).1 = none ∧
    (∀ e, clientErr = some e →
      (deliveryTask clientErr log).2 =
        log ++ [⟨LogLevel.debug, "Failed to report event"⟩]) ∧
    (completeTask r (deliveryTask clientErr log).1).groupErr = r.groupErr ∧
    (completeTask r (deliveryTask clientErr log).1).groupCancelled = r.groupCancelled := by
  cases clientErr <;> simp [deliveryTask, completeTask]

/-- C7 witness: a delivery that failed with a network error still completes
its task with success and leaves the group untouched. -/
theorem C7_witness :
    (deliveryTask (some (GoError.other "network")) []).1 = none ∧
    (∀ e, (some (GoError.other "network") : Option GoError) = some e →
      (deliveryTask (some (GoError.other "network")) []).2 =
        [] ++ [⟨LogLevel.debug, "Failed to report event"⟩]) ∧
    (completeTask rBusy (deliveryTask (some (GoError.other "network")) []).1).groupErr =
      rBusy.groupErr ∧
    (completeTask rBusy (deliveryTask (some (GoError.other "network")) []).1).groupCancelled =
      rBusy.groupCancelled :=
  C7_delivery_errors_swallowed (some (GoError.other "network")) rBusy []

/-- C8: with an already-expired deadline either `select` arm may fire; on both
arms `Shutdown` returns the same value as `Close` and reaches the same
observable end state — no in-flight delivery survives and the shared group
context is cancelled (the hypothesis on the group error is the reachable-state
invariant: delivery tasks return nil, so only the injected cancellation is
ever recorded). -/
theorem C8_expired_shutdown_equals_close (r : Reporter) (b : ShutdownBranch)
    (hg : r.groupErr = none ∨ r.groupErr = some GoError.canceled) :
    (Shutdown r b).1 = (Close r).1 ∧
    (Shutdown r b).2.inFlight = (Close r).2.inFlight ∧
    (Shutdown r b).2.groupCancelled = (Close r).2.groupCancelled := by
  cases b with
  | deadline =>
      refine ⟨?_, ?_, ?_⟩
      · show (Close { r with shuttingDown := true }).1 = (Close r).1
        rw [Close_fst_none r hg, Close_fst_none { r with shuttingDown := true } hg]
      · show (Close { r with shuttingDown := true }).2.inFlight = (Close r).2.inFlight
        rw [Close_snd_eq, Close_snd_eq]
      · show (Close { r with shuttingDown := true }).2.groupCancelled =
          (Close r).2.groupCancelled
        rw [Close_snd_eq, Close_snd_eq]
  | drained =>
      have h1 := Close_fst_none r hg
      have h2 := Close_snd_eq r
      rcases hg with hg | hg <;> simp [Shutdown, hg, h1, h2]

/-- C8 witness: on a fresh reporter, the deadline arm of an expired-deadline
shutdown returns and ends exactly as `Close` does. -/
theorem C8_witness :
    (Shutdown (NewReporter "sess" conf0) ShutdownBranch.deadline).1 =
      (Close (NewReporter "sess" conf0)).1 ∧
    (Shutdown (NewReporter "sess" conf0) ShutdownBranch.deadline).2.inFlight =
      (Close (NewReporter "sess" conf0)).2.inFlight ∧
    (Shutdown (NewReporter "sess" conf0) ShutdownBranch.deadline).2.groupCancelled =
      (Close (NewReporter "sess" conf0)).2.groupCancelled :=
  C8_expired_shutdown_equals_close (NewReporter "sess" conf0) ShutdownBranch.deadline
    (Or.inl rfl)

/-- Appending one log line changes the warning count by one exactly when the
line is warning-level. -/
theorem warnCount_append (l : List LogEntry) (e : LogEntry) :
    warnCount (l ++ [e]) = warnCount l +
      (if e.level = LogLevel.warn then 1 else 0) := by
  simp [warnCount, List.countP_append, List.countP_cons]

/-- A single `ReportEvent` call never pushes the in-flight count past the
limit. -/
theorem ReportEvent_inFlight_le (doNotTrack : String) (now : Nat) (r : Reporter)
    (ev : TelemetryEvent) (hle : r.inFlight ≤ maxConcurrentReports) :
    (ReportEvent doNotTrack now r ev).1.inFlight ≤ maxConcurrentReports := by
  simp only [ReportEvent]
  split
  · exact hle
  · split
    · exact hle
    · split
      next h => exact h
      next h => exact hle

/-- Accounting for a burst of `ReportEvent` calls with no intervening task
completion: the in-flight count saturates at the limit, exactly the admitted
events appear in the started list, and each excess event adds one warning
line. -/
theorem reportMany_accounting (now : Nat) (evs : List TelemetryEvent) :
    ∀ r : Reporter, r.shuttingDown = false → r.inFlight ≤ maxConcurrentReports →
      (reportMany "" now r evs).inFlight =
        min (r.inFlight + evs.length) maxConcurrentReports ∧
      (reportMany "" now r evs).started.length =
        r.started.length +
          (min (r.inFlight + evs.length) maxConcurrentReports - r.inFlight) ∧
      warnCount (reportMany "" now r evs).log =
        warnCount r.log + (r.inFlight + evs.length - maxConcurrentReports) := by
  induction evs with
  | nil =>
      intro r hsd hle
      refine ⟨?_, ?_, ?_⟩ <;>
        · simp only [reportMany, List.foldl_nil, List.length_nil,
            maxConcurrentReports] at *
          omega
  | cons ev rest ih =>
      intro r hsd hle
      have hrun : reportMany "" now r (ev :: rest) =
          reportMany "" now (ReportEvent "" now r ev).1 rest := rfl
      by_cases hcap : r.inFlight < maxConcurrentReports
      · have hr : (ReportEvent "" now r ev).1 = { r with
            inFlight := r.inFlight + 1
            started := r.started ++ [enrich r now ev] } := by
          simp [ReportEvent, hsd, hcap]
        obtain ⟨h1, h2, h3⟩ := ih { r with
            inFlight := r.inFlight + 1
            started := r.started ++ [enrich r now ev] } hsd (by
          show r.inFlight + 1 ≤ maxConcurrentReports
          exact hcap)
        rw [hrun, hr]
        refine ⟨?_, ?_, ?_⟩
        · rw [h1]
          show min (r.inFlight + 1 + rest.length) maxConcurrentReports =
            min (r.inFlight + (ev :: rest).length) maxConcurrentReports
          simp only [List.length_cons]
          omega
        · rw [h2]
          show (r.started ++ [enrich r now ev]).length +
              (min (r.inFlight + 1 + rest.length) maxConcurrentReports -
                (r.inFlight + 1)) =
            r.started.length +
              (min (r.inFlight + (ev :: rest).length) maxConcurrentReports -
                r.inFlight)
          simp only [List.length_append, List.length_cons, List.length_nil,
            maxConcurrentReports] at *
          omega
        · rw [h3]
          show warnCount r.log +
              (r.inFlight + 1 + rest.length - maxConcurrentReports) =
            warnCount r.log +
              (r.inFlight + (ev :: rest).length - maxConcurrentReports)
          simp only [List.length_cons]
          omega
      · have hr : (ReportEvent "" now r ev).1 = { r with
            log := r.log ++
              [⟨LogLevel.warn, "Too many in-flight telemetry reports, dropping event"⟩] } := by
          simp [ReportEvent, hsd, hcap]
        obtain ⟨h1, h2, h3⟩ := ih { r with
            log := r.log ++
              [⟨LogLevel.warn, "Too many in-flight telemetry reports, dropping event"⟩] }
          hsd hle
        have hi : r.inFlight = maxConcurrentReports := by omega
        rw [hrun, hr]
        refine ⟨?_, ?_, ?_⟩
        · rw [h1]
          show min (r.inFlight + rest.length) maxConcurrentReports =
            min (r.inFlight + (ev :: rest).length) maxConcurrentReports
          simp only [List.length_cons, maxConcurrentReports] at *
          omega
        · rw [h2]
          show r.started.length +
              (min (r.inFlight + rest.length) maxConcurrentReports - r.inFlight) =
            r.started.length +
              (min (r.inFlight + (ev :: rest).length) maxConcurrentReports -
                r.inFlight)
          simp only [List.length_cons, maxConcurrentReports] at *
          omega
        · rw [h3]
          have hw : warnCount (r.log ++
              [⟨LogLevel.warn, "Too many in-flight telemetry reports, dropping event"⟩]) =
              warnCount r.log + 1 := by
            rw [warnCount_append]
            rfl
          show warnCount (r.log ++
              [⟨LogLevel.warn, "Too many in-flight telemetry reports, dropping event"⟩]) +
              (r.inFlight + rest.length - maxConcurrentReports) =
            warnCount r.log +
              (r.inFlight + (ev :: rest).length - maxConcurrentReports)
          rw [hw]
          simp only [List.length_cons, maxConcurrentReports] at *
          omega

/-- C3: the capacity constant is 16 and is never exceeded: a single call
keeps the in-flight count at or below the limit; a call arriving with the
group at capacity (opt-out inactive, not shutting down) drops the event
without queueing — the started list and in-flight count are unchanged and one
warning line is logged; and a burst of `n ≥ 16` events on a fresh reporter,
arriving faster than any delivery completes, yields exactly 16 in-flight
deliveries and `n - 16` dropped-with-warning events. -/
theorem C3_capacity_bound (doNotTrack : String) (now : Nat) (r : Reporter)
    (ev : TelemetryEvent) (sessionID : String) (conf : Configuration)
    (evs : List TelemetryEvent) (hle : r.inFlight ≤ maxConcurrentReports)
    (hsd : r.shuttingDown = false) (hn : maxConcurrentReports ≤ evs.length) :
    maxConcurrentReports = 16 ∧
    (ReportEvent doNotTrack now r ev).1.inFlight ≤ maxConcurrentReports ∧
    (r.inFlight = maxConcurrentReports → doNotTrack = "" →
      (ReportEvent doNotTrack now r ev).1.started = r.started ∧
      (ReportEvent doNotTrack now r ev).1.inFlight = r.inFlight ∧
      warnCount (ReportEvent doNotTrack now r ev).1.log = warnCount r.log + 1) ∧
    ((reportMany "" now (NewReporter sessionID conf) evs).inFlight =
        maxConcurrentReports ∧
      (reportMany "" now (NewReporter sessionID conf) evs).started.length =
        maxConcurrentReports ∧
      warnCount (reportMany "" now (NewReporter sessionID conf) evs).log =
        evs.length - maxConcurrentReports) := by
  refine ⟨rfl, ReportEvent_inFlight_le doNotTrack now r ev hle, ?_, ?_⟩
  · intro hi hd
    subst hd
    have hcap : ¬ r.inFlight < maxConcurrentReports := by omega
    have hr : (ReportEvent "" now r ev).1 = { r with
        log := r.log ++
          [⟨LogLevel.warn, "Too many in-flight telemetry reports, dropping event"⟩] } := by
      simp [ReportEvent, hsd, hcap]
    rw [hr]
    refine ⟨rfl, rfl, ?_⟩
    rw [warnCount_append]
    rfl
  · obtain ⟨h1, h2, h3⟩ := reportMany_accounting now evs (NewReporter sessionID conf)
      rfl (by simp [NewReporter, maxConcurrentReports])
    refine ⟨?_, ?_, ?_⟩
    · rw [h1]
      show min (0 + evs.length) maxConcurrentReports = maxConcurrentReports
      simp only [maxConcurrentReports] at *
      omega
    · rw [h2]
      show 0 + (min (0 + evs.length) maxConcurrentReports - 0) = maxConcurrentReports
      simp only [maxConcurrentReports] at *
      omega
    · rw [h3]
      show 0 + (0 + evs.length - maxConcurrentReports) =
        evs.length - maxConcurrentReports
      omega

/-- C3 witness: a reporter at capacity drops the next event with a warning,
and a burst of 17 events on a fresh reporter ends with 16 in flight and one
dropped. -/
theorem C3_witness :
    maxConcurrentReports = 16 ∧
    (ReportEvent "" 1 rFull ev0).1.inFlight ≤ maxConcurrentReports ∧
    ((ReportEvent "" 1 rFull ev0).1.started = rFull.started ∧
      (ReportEvent "" 1 rFull ev0).1.inFlight = rFull.inFlight ∧
      warnCount (ReportEvent "" 1 rFull ev0).1.log = warnCount rFull.log + 1) ∧
    ((reportMany "" 1 (NewReporter "sess" conf0) (List.replicate 17 ev0)).inFlight =
        maxConcurrentReports ∧
      (reportMany "" 1 (NewReporter "sess" conf0)
          (List.replicate 17 ev0)).started.length = maxConcurrentReports ∧
      warnCount (reportMany "" 1 (NewReporter "sess" conf0)
          (List.replicate 17 ev0)).log =
        (List.replicate 17 ev0).length - maxConcurrentReports) := by
  obtain ⟨h1, h2, h3, h4⟩ := C3_capacity_bound "" 1 rFull ev0 "sess" conf0
    (List.replicate 17 ev0) (by decide) rfl (by decide)
  exact ⟨h1, h2, h3 rfl rfl, h4⟩

end Telemetry
